import Mathlib

/-!
Verification of the x402 payment negotiation core of the unreel-mcp-x402
repository.  The definitions below are a shallow embedding of the
TypeScript sources: `handlePayment` and `pollJobStatus` from `src/index.ts`,
and the axios-based `pollJobStatus` variant from the second source file.
JavaScript runtime values are modelled by an explicit `JsValue` type,
machine numbers by `Int`/`Nat`, and every fallible step by `Option`/`Except`.
Network responses are supplied through an explicit environment record, so
the orchestration logic itself is a pure function of that environment.
-/

namespace X402

/-- A JSON-ish JavaScript runtime value, as produced by `res.json()`.
Numbers are modelled as integers (the values flowing through the payment
instruction payload are byte arrays and integer amounts).  Object fields
are kept in JavaScript enumeration order. -/
inductive JsValue where
  | nullV : JsValue
  | undefV : JsValue
  | boolV : Bool → JsValue
  | numV : Int → JsValue
  | strV : String → JsValue
  | arrV : List JsValue → JsValue
  | objV : List (String × JsValue) → JsValue

/-- JavaScript truthiness of a value: `null`, `undefined`, `false`, `0` and
the empty string are falsy; every array and object is truthy. -/
def jsTruthy : JsValue → Bool
  | .nullV => false
  | .undefV => false
  | .boolV b => b
  | .numV n => n != 0
  | .strV s => s != ""
  | .arrV _ => true
  | .objV _ => true

/-- Optional-chained field access `v?.k`: `undefined` on `null`/`undefined`
and on every non-object value, field lookup (or `undefined`) on objects. -/
def jsGetField : JsValue → String → JsValue
  | .objV fields, k => (fields.lookup k).getD .undefV
  | _, _ => .undefV

/-- JavaScript truthiness filter on an optional string field: an absent
field and the empty string are both falsy (`s || t` falls through them). -/
def jsTruthyStr : Option String → Option String
  | some s => if s = "" then none else some s
  | none => none

/-- Models `Number(s)` followed by `BigInt(n)` on a string, as performed on
`maxAmountRequired` by `handlePayment` line 74 and by
`createTransferInstruction`: it succeeds exactly on integral decimal
strings (optional sign; the empty string converts to `0`).  Fractional,
scientific and hexadecimal forms, which `Number` accepts but `BigInt`
rejects or which do not occur for asset amounts, are mapped to failure
together with the `NaN` cases. -/
def decDigitsVal (cs : List Char) : Nat :=
  cs.foldl (fun a c => a * 10 + (c.toNat - 48)) 0

def parseIntegralNumber (s : String) : Option Int :=
  match s.toList with
  | [] => some 0
  | '-' :: rest =>
      if rest ≠ [] ∧ rest.all Char.isDigit then some (-(decDigitsVal rest : Int)) else none
  | '+' :: rest =>
      if rest ≠ [] ∧ rest.all Char.isDigit then some (decDigitsVal rest : Int) else none
  | cs =>
      if cs.all Char.isDigit then some (decDigitsVal cs : Int) else none

/-- The base58 alphabet used by `bs58` / `@scure/base`. -/
def base58Alphabet : List Char :=
  "123456789ABCDEFGHJKLMNPQRSTUVWXYZabcdefghijkmnopqrstuvwxyz".toList

def charIndex? (c : Char) : List Char → Option Nat
  | [] => none
  | d :: ds => if d = c then some 0 else (charIndex? c ds).map (· + 1)

def base58Digit? (c : Char) : Option Nat := charIndex? c base58Alphabet

/-- Numeric value of a base58 string; `none` on a character outside the
alphabet (bs58 throws there). -/
def base58Value? (s : String) : Option Nat :=
  s.toList.foldl
    (fun acc c =>
      match acc, base58Digit? c with
      | some a, some d => some (a * 58 + d)
      | _, _ => none)
    (some 0)

/-- Number of leading `'1'` characters: each contributes one leading zero
byte to the decoded array. -/
def leadingOnes (s : String) : Nat :=
  (s.toList.takeWhile (fun c => c = '1')).length

/-- Minimal byte length of a natural number (0 for 0).  Fuelled recursion
so that the kernel can evaluate it on 256-bit values. -/
def natByteLenAux : Nat → Nat → Nat
  | 0, _ => 0
  | fuel + 1, n => if n = 0 then 0 else natByteLenAux fuel (n / 256) + 1

def natByteLen (n : Nat) : Nat := natByteLenAux 64 n

/-- Models `new PublicKey(s)` of `@solana/web3.js` on a string: base58
decoding (leading-zero bytes from leading `'1'` characters plus the
big-endian bytes of the value), requiring the decoded array to be exactly
32 bytes.  A key is represented by its numeric value, which together with
the fixed 32-byte length determines the byte array uniquely. -/
def parsePublicKey (s : String) : Option Nat :=
  match base58Value? s with
  | none => none
  | some v => if leadingOnes s + natByteLen v = 32 then some v else none

/-- The SPL token program id, `TOKEN_PROGRAM_ID` of `@solana/spl-token`. -/
def TOKEN_PROGRAM_ID : Nat :=
  (parsePublicKey "TokenkegQfeZyiNwAJbNbGKPFXCWuBvf9Ss623VQ5DA").getD 0

/-- An account reference of a built instruction (`web3.js` `AccountMeta`). -/
structure AccountMeta where
  pubkey : Nat
  isSigner : Bool
  isWritable : Bool
deriving DecidableEq, Repr

/-- A built transaction instruction: program id, ordered account
references, and its data bytes. -/
structure Instruction where
  programId : Nat
  keys : List AccountMeta
  data : List Nat
deriving DecidableEq, Repr

/-- A transaction draft: anchor blockhash, fee payer and the ordered
instruction list (`web3.js` `Transaction` as used by `handlePayment`). -/
structure Draft where
  recentBlockhash : String
  feePayer : Nat
  instructions : List Instruction
deriving DecidableEq, Repr

/-- Little-endian byte expansion with fixed width. -/
def natLEBytes : Nat → Nat → List Nat
  | 0, _ => []
  | w + 1, n => n % 256 :: natLEBytes w (n / 256)

/-- The u64 layout of the SPL transfer amount (defined by the layout for
amounts in `[0, 2^64)`; the code only ever passes the parsed
`maxAmountRequired`). -/
def u64le (amount : Int) : List Nat :=
  natLEBytes 8 ((amount.emod (2 ^ 64)).toNat)

/-- `createTransferInstruction(source, destination, owner, amount, [],
TOKEN_PROGRAM_ID)` of `@solana/spl-token`: source and destination are
writable non-signers, the owner is a read-only signer, and the data is the
`Transfer` tag (3) followed by the u64 amount. -/
def createTransferInstruction (source destination owner : Nat) (amount : Int) :
    Instruction where
  programId := TOKEN_PROGRAM_ID
  keys :=
    [{ pubkey := source, isSigner := false, isWritable := true },
     { pubkey := destination, isSigner := false, isWritable := true },
     { pubkey := owner, isSigner := true, isWritable := false }]
  data := 3 :: u64le amount

/-- The role-to-flags translation applied to each relay instruction
account (`src/index.ts` lines 163-164):
`isSigner := role === 2 || role === 3`,
`isWritable := role === 1 || role === 3`. -/
def roleToFlags (role : Int) : Bool × Bool :=
  (role == 2 || role == 3, role == 1 || role == 3)

/-- One `(address, role)` account reference of a relay payment
instruction. -/
structure RelayAccount where
  address : String
  role : Int

/-- The relay's `payment_instruction` object. -/
structure PaymentInstruction where
  programAddress : String
  accounts : List RelayAccount
  data : JsValue

/-- `paymentInstruction.accounts.map(...)` of `src/index.ts` lines
161-165: each address goes through the `PublicKey` constructor (failure
aborts the whole negotiation) and each role through `roleToFlags`. -/
def mapAccounts : List RelayAccount → Option (List AccountMeta)
  | [] => some []
  | a :: rest =>
      match parsePublicKey a.address, mapAccounts rest with
      | some pk, some ms =>
          some ({ pubkey := pk,
                  isSigner := (roleToFlags a.role).1,
                  isWritable := (roleToFlags a.role).2 } :: ms)
      | _, _ => none

/-- Byte coercion applied to each element when `Buffer.from` receives an
array (ToNumber then ToUint8).  Singleton number arrays coerce through
their string form to the number; other arrays, objects and non-numeric
strings coerce through `NaN` to 0.  (String elements whose own ToNumber
detour is fractional, and singleton arrays holding non-numbers, are
approximated by 0; no theorem below depends on those cases.) -/
def toByte : JsValue → Nat
  | .numV n => (n % 256).toNat
  | .boolV b => if b then 1 else 0
  | .strV s =>
      match parseIntegralNumber s with
      | some n => (n % 256).toNat
      | none => 0
  | .nullV => 0
  | .undefV => 0
  | .arrV [.numV n] => (n % 256).toNat
  | .arrV _ => 0
  | .objV _ => 0

/-- UTF-8 bytes of a string (`Buffer.from(string)`). -/
def utf8Bytes (s : String) : List Nat :=
  s.toUTF8.toList.map (fun b => b.toNat)

/-- `Buffer.from(x)` as invoked on a truthy `data.data` field: defined on
arrays and strings; numbers, booleans and plain objects raise `TypeError`.
(Array-like objects carrying a numeric `length` field, which Node also
accepts, are not modelled; no theorem below touches that case.) -/
def bufferFromValue : JsValue → Option (List Nat)
  | .arrV xs => some (xs.map toByte)
  | .strV s => some (utf8Bytes s)
  | _ => none

/-- The data-normalization cascade of `src/index.ts` lines 149-158:
a flat array maps to its bytes; otherwise a truthy `data` field is fed to
`Buffer.from`; otherwise `typeof data === "object"` (which is also true of
`null`!) leads to `Object.values`; every remaining value yields an empty
buffer.  `Object.values(null)` raises a `TypeError` at runtime. -/
def normalizeData : JsValue → Except String (List Nat)
  | .arrV xs => .ok (xs.map toByte)
  | v =>
      if jsTruthy (jsGetField v "data") then
        match bufferFromValue (jsGetField v "data") with
        | some bs => .ok bs
        | none => .error "TypeError: argument must be an array or array-like object"
      else
        match v with
        | .objV fields => .ok ((fields.map Prod.snd).map toByte)
        | .nullV => .error "TypeError: Cannot convert undefined or null to object"
        | _ => .ok []

/-- The payment challenge parsed from `accepts[0]` of a 402 response. -/
structure PaymentRequirements where
  network : String
  payTo : String
  asset : String
  maxAmountRequired : String
  x402_tenant_id? : Option String := none

/-- The relay's `/payment-instruction` response body.  `error?` and
`signer_address?` are `none` when the field is absent. -/
structure InstructionResponse where
  error? : Option String := none
  payment_instruction? : Option PaymentInstruction := none
  signer_address? : Option String := none

/-- The relay's `/settle` response body.  `success? = none` models a
response lacking the `success` flag. -/
structure SettleResponse where
  success? : Option Bool := none
  transaction? : Option String := none
  errorReason? : Option String := none
  error? : Option String := none
deriving DecidableEq, Repr

/-- Everything external that a `handlePayment` run consumes: the fee payer
extracted from the discovery response (`kinds?.[0]?.extra?.feePayer`, or
`none` when that chain is absent), the instruction and settlement
responses, the fetched blockhash, the wallet's public key, and the
associated-token-address derivation (an opaque deterministic sha256-based
map, passed in as a function). -/
structure RelayEnv where
  supportedFeePayer? : Option String
  instructionResp : InstructionResponse
  settleResp : SettleResponse
  blockhash : String
  walletPk : Nat
  ataOf : Nat → Nat → Nat
  unreelApiUrl : String

/-- The failure kinds of a negotiation, named after the spec's error
vocabulary; each carries the site or upstream message.  `invalidChallenge`
covers the `PublicKey` constructor and `BigInt` conversion failures on
challenge fields, `invalidRelayData` the same failures on relay-supplied
strings and the data-normalization `TypeError`. -/
inductive PayError where
  | invalidChallenge : String → PayError
  | sponsorUnavailable : String → PayError
  | invalidRelayData : String → PayError
  | relayRejected : String → PayError
  | settlementFailed : String → PayError
deriving DecidableEq, Repr

/-- The `/settle` request body of `src/index.ts` lines 179-196 (the
partially signed transaction is represented by the draft it serializes). -/
structure SettleRequest where
  urlTenant : String
  scheme : String
  network : String
  maxAmountRequired : String
  resource : String
  payTo : String
  asset : String
  extraFeePayer : String
  transactionDraft : Draft
deriving DecidableEq, Repr

deriving instance DecidableEq for Except

/-- Observable record of one `handlePayment` run: the resolved sponsor,
the two draft generations, whether the instruction endpoint was reached,
the relay-assigned signer, the settlement request if one was issued, and
the final outcome (the settlement response's `transaction` field on
success). -/
structure RunLog where
  sponsorAddress? : Option String := none
  firstDraft? : Option Draft := none
  instructionRequested : Bool := false
  signerAddress? : Option String := none
  finalDraft? : Option Draft := none
  settleRequest? : Option SettleRequest := none
  outcome : Except PayError (Option String)
deriving DecidableEq, Repr

/-- The failure message of `src/index.ts` line 202:
`settleData.errorReason || settleData.error || "Unknown error"`. -/
def settleFailMsg (r : SettleResponse) : String :=
  match jsTruthyStr r.errorReason? with
  | some m => m
  | none =>
      match jsTruthyStr r.error? with
      | some m => m
      | none => "Unknown error"

/-- Shallow embedding of `handlePayment` (`src/index.ts` lines 68-207) as
a pure function of the environment.  The steps follow the source order:
parse `payTo` and `asset` (lines 72-73), check the discovery response's
fee payer (line 82), parse it (line 95), build the transfer instruction
(lines 97-106, where a non-integral amount makes `BigInt` throw), check
the instruction response (line 123), parse the relay-assigned signer
(line 134), rebuild the draft with the same blockhash (lines 132-146),
normalize the instruction data (lines 149-158), translate the accounts
and program address (lines 160-168), and settle (lines 176-206). -/
def handlePayment (env : RelayEnv) (req : PaymentRequirements) : RunLog :=
  let tenantId := (jsTruthyStr req.x402_tenant_id?).getD "unreel-ai"
  match parsePublicKey req.payTo with
  | none => { outcome := .error (.invalidChallenge "payTo") }
  | some payToPk =>
  match parsePublicKey req.asset with
  | none => { outcome := .error (.invalidChallenge "asset") }
  | some mintPk =>
  match jsTruthyStr env.supportedFeePayer? with
  | none =>
      { outcome := .error (.sponsorUnavailable "Failed to get fee payer from x402 service") }
  | some sponsor =>
  match parsePublicKey sponsor with
  | none => { sponsorAddress? := some sponsor, outcome := .error (.invalidRelayData "feePayer") }
  | some sponsorPk =>
  match parseIntegralNumber req.maxAmountRequired with
  | none => { sponsorAddress? := some sponsor, outcome := .error (.invalidChallenge "amount") }
  | some amount =>
  let senderAta := env.ataOf mintPk env.walletPk
  let recipientAta := env.ataOf mintPk payToPk
  let transferIx := createTransferInstruction senderAta recipientAta env.walletPk amount
  let firstDraft : Draft :=
    { recentBlockhash := env.blockhash, feePayer := sponsorPk, instructions := [transferIx] }
  let ir := env.instructionResp
  match jsTruthyStr ir.error? with
  | some msg =>
      { sponsorAddress? := some sponsor, firstDraft? := some firstDraft,
        instructionRequested := true,
        outcome := .error (.relayRejected msg) }
  | none =>
  match ir.payment_instruction? with
  | none =>
      { sponsorAddress? := some sponsor, firstDraft? := some firstDraft,
        instructionRequested := true,
        outcome := .error (.relayRejected "No instruction returned") }
  | some pi =>
  match ir.signer_address? with
  | none =>
      { sponsorAddress? := some sponsor, firstDraft? := some firstDraft,
        instructionRequested := true,
        outcome := .error (.invalidRelayData "signerAddress") }
  | some signer =>
  match parsePublicKey signer with
  | none =>
      { sponsorAddress? := some sponsor, firstDraft? := some firstDraft,
        instructionRequested := true, signerAddress? := some signer,
        outcome := .error (.invalidRelayData "signerAddress") }
  | some signerPk =>
  let transferIx2 := createTransferInstruction senderAta recipientAta env.walletPk amount
  match normalizeData pi.data with
  | .error e =>
      { sponsorAddress? := some sponsor, firstDraft? := some firstDraft,
        instructionRequested := true, signerAddress? := some signer,
        outcome := .error (.invalidRelayData e) }
  | .ok dataBytes =>
  match mapAccounts pi.accounts with
  | none =>
      { sponsorAddress? := some sponsor, firstDraft? := some firstDraft,
        instructionRequested := true, signerAddress? := some signer,
        outcome := .error (.invalidRelayData "accountAddress") }
  | some keys =>
  match parsePublicKey pi.programAddress with
  | none =>
      { sponsorAddress? := some sponsor, firstDraft? := some firstDraft,
        instructionRequested := true, signerAddress? := some signer,
        outcome := .error (.invalidRelayData "programAddress") }
  | some programPk =>
  let koraIx : Instruction := { programId := programPk, keys := keys, data := dataBytes }
  let finalDraft : Draft :=
    { recentBlockhash := env.blockhash, feePayer := signerPk,
      instructions := [transferIx2, koraIx] }
  let settleReq : SettleRequest :=
    { urlTenant := tenantId, scheme := "exact",
      network := "solana:5eykt4UsFv8P8NJdTREpY1vzqKqZKvdp",
      maxAmountRequired := req.maxAmountRequired,
      resource := env.unreelApiUrl ++ "/api/generate-x402",
      payTo := req.payTo, asset := req.asset,
      extraFeePayer := signer, transactionDraft := finalDraft }
  match env.settleResp.success? with
  | some true =>
      { sponsorAddress? := some sponsor, firstDraft? := some firstDraft,
        instructionRequested := true, signerAddress? := some signer,
        finalDraft? := some finalDraft, settleRequest? := some settleReq,
        outcome := .ok env.settleResp.transaction? }
  | _ =>
      { sponsorAddress? := some sponsor, firstDraft? := some firstDraft,
        instructionRequested := true, signerAddress? := some signer,
        finalDraft? := some finalDraft, settleRequest? := some settleReq,
        outcome := .error (.settlementFailed (settleFailMsg env.settleResp)) }

/-- The JSON body of one job-status response (`response.data`). -/
structure JobData where
  status? : Option String := none
  error? : Option String := none
  video_url? : Option String := none
deriving DecidableEq, Repr

/-- One observation of the job endpoint through axios: either a 2xx JSON
body, or a thrown request error carrying `error.response?.status`. -/
inductive JobFetchResult where
  | data : JobData → JobFetchResult
  | httpErr : Option Nat → JobFetchResult
deriving DecidableEq, Repr

/-- Result of the axios-based `pollJobStatus` (second source file, lines
59-92). -/
inductive PollOutcome where
  | completed : JobData → PollOutcome
  | jobFailed : String → PollOutcome
  | jobNotFound : String → PollOutcome
  | raised : Option Nat → PollOutcome
  | timeout : String → PollOutcome
deriving DecidableEq, Repr

/-- Loop body of the axios-based `pollJobStatus`: on each attempt a thrown
404 becomes the job-not-found failure, any other thrown request error is
re-raised, a `completed` status returns the body, a `failed` status raises
`Job failed: <error || "Unknown error">` (which the catch block re-raises
unchanged since it carries no response), and anything else retries until
the attempt budget is exhausted. -/
def pollJobStatusFrom (resp : Nat → JobFetchResult) (jobId : String) (maxAttempts : Nat) :
    Nat → Nat → PollOutcome
  | _, 0 => .timeout ("Job timed out after " ++ toString maxAttempts ++ " attempts")
  | attempt, fuel + 1 =>
      match resp attempt with
      | .httpErr code? =>
          if code? = some 404 then .jobNotFound ("Job not found: " ++ jobId)
          else .raised code?
      | .data d =>
          if d.status? = some "completed" then .completed d
          else if d.status? = some "failed" then
            .jobFailed ("Job failed: " ++ ((jsTruthyStr d.error?).getD "Unknown error"))
          else pollJobStatusFrom resp jobId maxAttempts (attempt + 1) fuel

/-- The axios-based `pollJobStatus(api, jobId, maxAttempts, initialDelay)`
of the second source file, abstracted over the sequence of responses. -/
def pollJobStatus (resp : Nat → JobFetchResult) (jobId : String) (maxAttempts : Nat) :
    PollOutcome :=
  pollJobStatusFrom resp jobId maxAttempts 0 maxAttempts

/-- Result of the fetch-based `pollJobStatus` of `src/index.ts` lines
266-286, which has no catch block: a missing job is never detected, so the
only outcomes are completion, job failure and timeout. -/
inductive PollFetchOutcome where
  | completed : JobData → PollFetchOutcome
  | jobFailed : String → PollFetchOutcome
  | timeout : String → PollFetchOutcome
deriving DecidableEq, Repr

/-- Loop body of the fetch-based `pollJobStatus`: every response body is
inspected only for `status === "completed"` and `status === "failed"`;
any other body (including a 404 error body) counts as still pending. -/
def pollJobStatusFetchFrom (resp : Nat → JobData) (maxAttempts : Nat) :
    Nat → Nat → PollFetchOutcome
  | _, 0 => .timeout ("Job timed out after " ++ toString maxAttempts ++ " attempts")
  | attempt, fuel + 1 =>
      let d := resp attempt
      if d.status? = some "completed" then .completed d
      else if d.status? = some "failed" then
        .jobFailed ("Job failed: " ++ ((jsTruthyStr d.error?).getD "Unknown error"))
      else pollJobStatusFetchFrom resp maxAttempts (attempt + 1) fuel

/-- The fetch-based `pollJobStatus(jobId, maxAttempts, initialDelay)` of
`src/index.ts`, abstracted over the sequence of response bodies. -/
def pollJobStatusFetch (resp : Nat → JobData) (maxAttempts : Nat) : PollFetchOutcome :=
  pollJobStatusFetchFrom resp maxAttempts 0 maxAttempts

/-- `Math.min` on exact rationals, written so that the kernel can
evaluate it. -/
def ratMin (a b : ℚ) : ℚ := if a ≤ b then a else b

/-- The inter-attempt delay of both pollers (`delay = initialDelay;` then
`delay = Math.min(delay * 1.2, 30000)` after every attempt), in exact
rational arithmetic.  `pollDelay d k` is the delay in force after `k`
completed attempts.  IEEE double rounding keeps the JavaScript values
within 1e-9 of these rationals and no comparison against the 30000 cap is
ever that close, so the rational model decides the capping behaviour
identically. -/
def pollDelay (initialDelay : ℚ) : Nat → ℚ
  | 0 => initialDelay
  | k + 1 => ratMin (pollDelay initialDelay k * (6 / 5)) 30000

theorem ratMin_le_right (a b : ℚ) : ratMin a b ≤ b := by
  unfold ratMin
  split
  · assumption
  · exact le_refl b

theorem ratMin_eq_left {a b : ℚ} (h : a ≤ b) : ratMin a b = a := if_pos h

theorem ratMin_eq_right {a b : ℚ} (h : ¬a ≤ b) : ratMin a b = b := if_neg h

/-- A well-formed base58 address: 31 leading `'1'` characters (31 zero
bytes) followed by one alphabet character, decoding to exactly 32 bytes. -/
def mkAddr (c : Char) : String := String.mk (List.replicate 31 '1' ++ [c])

def sponsorAddr : String := mkAddr '2'
def signerAddr : String := mkAddr '3'
def payToAddr : String := mkAddr '4'
def assetAddr : String := mkAddr '5'
def programAddr : String := mkAddr '6'
def acctAddr : String := mkAddr '7'

/-- A concrete relay payment instruction used by the witness runs. -/
def sampleInstruction : PaymentInstruction where
  programAddress := programAddr
  accounts := [{ address := acctAddr, role := 3 }, { address := signerAddr, role := 2 }]
  data := .arrV [.numV 1, .numV 2]

/-- A concrete environment in which the whole negotiation succeeds and the
relay assigns a signer different from the discovered sponsor. -/
def sampleEnv : RelayEnv where
  supportedFeePayer? := some sponsorAddr
  instructionResp :=
    { error? := none, payment_instruction? := some sampleInstruction,
      signer_address? := some signerAddr }
  settleResp := { success? := some true, transaction? := some "txok" }
  blockhash := "SAMPLEBLOCKHASH"
  walletPk := 1000
  ataOf := fun mint owner => 1000003 * mint + 7 * owner + 11
  unreelApiUrl := "https://x402.unreel.ai"

/-- A concrete well-formed challenge. -/
def sampleReq : PaymentRequirements where
  network := "solana:5eykt4UsFv8P8NJdTREpY1vzqKqZKvdp"
  payTo := payToAddr
  asset := assetAddr
  maxAmountRequired := "25000000"

/-- Values whose JavaScript `typeof` is neither an array nor `"object"`:
booleans, numbers, strings and `undefined` (`null` has typeof
`"object"`). -/
def jsTypeofNonObject : JsValue → Bool
  | .boolV _ => true
  | .numV _ => true
  | .strV _ => true
  | .undefV => true
  | _ => false

/-- A challenge with well-formed addresses and the non-positive required
amount `"0"`. -/
def reqZeroAmount : PaymentRequirements :=
  { sampleReq with maxAmountRequired := "0" }

/-- A challenge whose recipient address contains characters outside the
base58 alphabet. -/
def reqBadPayTo : PaymentRequirements :=
  { sampleReq with payTo := "not-base58-0OIl" }

/-- Claim C3: the role-to-flags translation applied to every
relay-instruction account reference is total over roles 0 through 3 and
yields role 0 ↦ (isSigner false, isWritable false), 1 ↦ (false, true),
2 ↦ (true, false), 3 ↦ (true, true). -/
theorem C3_role_to_flags :
    roleToFlags 0 = (false, false) ∧ roleToFlags 1 = (false, true) ∧
    roleToFlags 2 = (true, false) ∧ roleToFlags 3 = (true, true) := by
  decide

/-- Claim C8: the polling delay grows by the multiplicative factor 1.2
from `initialDelay = 5000` and is capped at 30000: it is strictly below
the cap for the first 10 attempts, first equals 30000 after 10 attempts,
stays at 30000 on every later attempt, and never exceeds 30000. -/
theorem C8_poll_delay :
    (∀ k, k < 10 → pollDelay 5000 k < 30000) ∧
    pollDelay 5000 10 = 30000 ∧
    (∀ k, 10 ≤ k → pollDelay 5000 k = 30000) ∧
    (∀ k, pollDelay 5000 k ≤ 30000) := by
  have h0 : pollDelay 5000 0 = 5000 := rfl
  have h1 : pollDelay 5000 1 = 6000 := by
    show ratMin (pollDelay 5000 0 * (6 / 5)) 30000 = 6000
    rw [h0, ratMin_eq_left (by norm_num)]; norm_num
  have h2 : pollDelay 5000 2 = 7200 := by
    show ratMin (pollDelay 5000 1 * (6 / 5)) 30000 = 7200
    rw [h1, ratMin_eq_left (by norm_num)]; norm_num
  have h3 : pollDelay 5000 3 = 8640 := by
    show ratMin (pollDelay 5000 2 * (6 / 5)) 30000 = 8640
    rw [h2, ratMin_eq_left (by norm_num)]; norm_num
  have h4 : pollDelay 5000 4 = 10368 := by
    show ratMin (pollDelay 5000 3 * (6 / 5)) 30000 = 10368
    rw [h3, ratMin_eq_left (by norm_num)]; norm_num
  have h5 : pollDelay 5000 5 = 62208 / 5 := by
    show ratMin (pollDelay 5000 4 * (6 / 5)) 30000 = 62208 / 5
    rw [h4, ratMin_eq_left (by norm_num)]; norm_num
  have h6 : pollDelay 5000 6 = 373248 / 25 := by
    show ratMin (pollDelay 5000 5 * (6 / 5)) 30000 = 373248 / 25
    rw [h5, ratMin_eq_left (by norm_num)]; norm_num
  have h7 : pollDelay 5000 7 = 2239488 / 125 := by
    show ratMin (pollDelay 5000 6 * (6 / 5)) 30000 = 2239488 / 125
    rw [h6, ratMin_eq_left (by norm_num)]; norm_num
  have h8 : pollDelay 5000 8 = 13436928 / 625 := by
    show ratMin (pollDelay 5000 7 * (6 / 5)) 30000 = 13436928 / 625
    rw [h7, ratMin_eq_left (by norm_num)]; norm_num
  have h9 : pollDelay 5000 9 = 80621568 / 3125 := by
    show ratMin (pollDelay 5000 8 * (6 / 5)) 30000 = 80621568 / 3125
    rw [h8, ratMin_eq_left (by norm_num)]; norm_num
  have h10 : pollDelay 5000 10 = 30000 := by
    show ratMin (pollDelay 5000 9 * (6 / 5)) 30000 = 30000
    rw [h9, ratMin_eq_right (by norm_num)]
  refine ⟨?_, h10, ?_, ?_⟩
  · intro k hk
    interval_cases k <;>
      simp only [h0, h1, h2, h3, h4, h5, h6, h7, h8, h9] <;> norm_num
  · intro k hk
    obtain ⟨m, rfl⟩ := Nat.exists_eq_add_of_le hk
    clear hk
    induction m with
    | zero => exact h10
    | succ m ih =>
        show ratMin (pollDelay 5000 (10 + m) * (6 / 5)) 30000 = 30000
        rw [ih, ratMin_eq_right (by norm_num)]
  · intro k
    cases k with
    | zero => rw [h0]; norm_num
    | succ n =>
        show ratMin (pollDelay 5000 n * (6 / 5)) 30000 ≤ 30000
        exact ratMin_le_right _ _

/-- Witness for C8 at concrete attempts 3, 12 and 7. -/
theorem C8_poll_delay_witness :
    pollDelay 5000 3 < 30000 ∧ pollDelay 5000 12 = 30000 ∧ pollDelay 5000 7 ≤ 30000 :=
  ⟨C8_poll_delay.1 3 (by decide), C8_poll_delay.2.2.1 12 (by decide),
   C8_poll_delay.2.2.2 7⟩

/-- Claim C10 is false on the code: data normalization is not total.  For
the input `null` — whose JavaScript `typeof` is `"object"` — the third
branch calls `Object.values(null)`, which raises a `TypeError` instead of
producing a byte sequence. -/
theorem C10_counterexample :
    normalizeData JsValue.nullV =
      .error "TypeError: Cannot convert undefined or null to object" := rfl

/-- Claim C10 as amended: normalization handles every documented shape
without error — a flat array maps to its bytes, an object whose `data`
field holds an array maps to the inner array's bytes, any other object
whose `data` field is absent or falsy maps to the sequence of its values,
and any non-object, non-array value maps to the empty sequence — but it is
not total: the value `null` (typeof `"object"`) reaches `Object.values`
and raises a `TypeError`. -/
theorem C10_normalize_data :
    (∀ xs, normalizeData (.arrV xs) = .ok (xs.map toByte)) ∧
    (∀ fields inner, jsGetField (.objV fields) "data" = .arrV inner →
        normalizeData (.objV fields) = .ok (inner.map toByte)) ∧
    (∀ fields, jsTruthy (jsGetField (.objV fields) "data") = false →
        normalizeData (.objV fields) = .ok ((fields.map Prod.snd).map toByte)) ∧
    (∀ v, jsTypeofNonObject v = true → normalizeData v = .ok []) ∧
    normalizeData .nullV =
      .error "TypeError: Cannot convert undefined or null to object" := by
  refine ⟨fun xs => rfl, ?_, ?_, ?_, rfl⟩
  · intro fields inner h
    simp [normalizeData, h, jsTruthy, bufferFromValue]
  · intro fields h
    simp [normalizeData, h]
  · intro v hv
    cases v <;> simp_all [normalizeData, jsGetField, jsTruthy, jsTypeofNonObject]

/-- Witness for C10 at a concrete wrapped object (byte 300 truncates to
44). -/
theorem C10_normalize_data_witness :
    jsGetField (.objV [("data", .arrV [.numV 7, .numV 300])]) "data" =
      .arrV [.numV 7, .numV 300] ∧
    normalizeData (.objV [("data", .arrV [.numV 7, .numV 300])]) = .ok [7, 44] :=
  ⟨rfl, C10_normalize_data.2.1 [("data", .arrV [.numV 7, .numV 300])]
    [.numV 7, .numV 300] rfl⟩

/-- Claim C4 is false on the code: the required amount is never validated.
With the non-positive amount `"0"` and well-formed addresses the transfer
draft is produced, the instruction step is reached, and the negotiation
runs to settlement. -/
theorem C4_counterexample :
    parseIntegralNumber "0" = some 0 ∧
    (handlePayment sampleEnv reqZeroAmount).firstDraft?.isSome = true ∧
    (handlePayment sampleEnv reqZeroAmount).instructionRequested = true ∧
    (handlePayment sampleEnv reqZeroAmount).outcome = .ok (some "txok") := by
  decide

/-- Claim C4 as amended: building the transfer draft fails whenever the
recipient or asset address is malformed, and for such challenges no draft
is produced and no downstream step (instruction request, signing,
settlement) is reached; the required amount is not validated — a zero
amount on an otherwise valid challenge produces a draft and reaches the
instruction step. -/
theorem C4_invalid_challenge :
    (∀ env req, parsePublicKey req.payTo = none ∨ parsePublicKey req.asset = none →
        (∃ w, (handlePayment env req).outcome = .error (.invalidChallenge w)) ∧
        (handlePayment env req).firstDraft? = none ∧
        (handlePayment env req).instructionRequested = false ∧
        (handlePayment env req).settleRequest? = none) ∧
    ((handlePayment sampleEnv reqZeroAmount).firstDraft?.isSome = true ∧
     (handlePayment sampleEnv reqZeroAmount).instructionRequested = true) := by
  constructor
  · intro env req h
    rcases h with h | h
    · refine ⟨⟨"payTo", ?_⟩, ?_, ?_, ?_⟩ <;> simp [handlePayment, h]
    · cases hp : parsePublicKey req.payTo with
      | none => refine ⟨⟨"payTo", ?_⟩, ?_, ?_, ?_⟩ <;> simp [handlePayment, hp]
      | some pk => refine ⟨⟨"asset", ?_⟩, ?_, ?_, ?_⟩ <;> simp [handlePayment, hp, h]
  · exact ⟨by decide, by decide⟩

/-- Witness for C4 at a concrete malformed recipient address. -/
theorem C4_invalid_challenge_witness :
    parsePublicKey "not-base58-0OIl" = none ∧
    (handlePayment sampleEnv reqBadPayTo).firstDraft? = none ∧
    (handlePayment sampleEnv reqBadPayTo).settleRequest? = none :=
  ⟨by decide,
   (C4_invalid_challenge.1 sampleEnv reqBadPayTo (Or.inl (by decide))).2.1,
   (C4_invalid_challenge.1 sampleEnv reqBadPayTo (Or.inl (by decide))).2.2.2⟩

/-- Claim C1: in every successful negotiation the rebuilt draft submitted
for signing and settlement has the relay-assigned `signer_address` as its
fee payer and reuses the first draft's anchor blockhash, and the
settlement request records that signer — never the step-1 sponsor when the
relay assigned a different address. -/
theorem C1_settles_with_relay_signer (env : RelayEnv) (req : PaymentRequirements)
    (log : RunLog) (hrun : handlePayment env req = log) (tx? : Option String)
    (hok : log.outcome = .ok tx?) :
    log.signerAddress? = env.instructionResp.signer_address? ∧
    log.finalDraft?.map Draft.feePayer = log.signerAddress?.bind parsePublicKey ∧
    log.settleRequest?.map SettleRequest.extraFeePayer = log.signerAddress? ∧
    log.finalDraft?.map Draft.recentBlockhash = log.firstDraft?.map Draft.recentBlockhash ∧
    log.settleRequest?.map SettleRequest.transactionDraft = log.finalDraft? ∧
    (∀ fd d1 s, log.finalDraft? = some fd → log.firstDraft? = some d1 →
        log.signerAddress? = some s → parsePublicKey s ≠ some d1.feePayer →
        fd.feePayer ≠ d1.feePayer) := by
  subst hrun
  revert hok
  simp only [handlePayment]
  repeat' split
  all_goals intro hok
  all_goals simp_all

/-- Witness for C1 on the concrete successful run, in which the relay
assigns `signerAddr` although discovery returned `sponsorAddr`. -/
theorem C1_settles_with_relay_signer_witness :
    (handlePayment sampleEnv sampleReq).outcome = .ok (some "txok") ∧
    (handlePayment sampleEnv sampleReq).finalDraft?.map Draft.feePayer =
      (handlePayment sampleEnv sampleReq).signerAddress?.bind parsePublicKey ∧
    (handlePayment sampleEnv sampleReq).finalDraft?.map Draft.recentBlockhash =
      (handlePayment sampleEnv sampleReq).firstDraft?.map Draft.recentBlockhash :=
  ⟨by decide,
   (C1_settles_with_relay_signer sampleEnv sampleReq _ rfl (some "txok") (by decide)).2.1,
   (C1_settles_with_relay_signer sampleEnv sampleReq _ rfl (some "txok") (by decide)).2.2.2.1⟩

/-- Claim C2: whenever the final draft exists, its instruction sequence is
exactly the first draft's (single) transfer instruction followed by the
relay instruction — the same transfer value in both drafts, hence
byte-identical — and the anchor blockhash is unchanged; this holds for
every relay account ordering since the account list only enters the
appended instruction. -/
theorem C2_instruction_order (env : RelayEnv) (req : PaymentRequirements)
    (log : RunLog) (hrun : handlePayment env req = log) (fd : Draft)
    (hfd : log.finalDraft? = some fd) :
    ∃ d1 t k, log.firstDraft? = some d1 ∧ d1.instructions = [t] ∧
      fd.instructions = [t, k] ∧ fd.recentBlockhash = d1.recentBlockhash ∧
      t.programId = TOKEN_PROGRAM_ID := by
  subst hrun
  revert hfd
  simp only [handlePayment]
  repeat' split
  all_goals intro hfd
  all_goals simp_all
  all_goals subst hfd
  all_goals exact ⟨⟨_, rfl⟩, rfl, rfl⟩

/-- Witness for C2 on the concrete successful run. -/
theorem C2_instruction_order_witness :
    ∃ fd d1 t k, (handlePayment sampleEnv sampleReq).finalDraft? = some fd ∧
      (handlePayment sampleEnv sampleReq).firstDraft? = some d1 ∧
      d1.instructions = [t] ∧ fd.instructions = [t, k] ∧
      fd.recentBlockhash = d1.recentBlockhash ∧
      t.programId = TOKEN_PROGRAM_ID := by
  have hs : (handlePayment sampleEnv sampleReq).finalDraft?.isSome = true := by decide
  have hfd : (handlePayment sampleEnv sampleReq).finalDraft? =
      some ((handlePayment sampleEnv sampleReq).finalDraft?.get hs) :=
    (Option.some_get hs).symm
  obtain ⟨d1, t, k, h1, h2, h3, h4, h5⟩ :=
    C2_instruction_order sampleEnv sampleReq _ rfl _ hfd
  exact ⟨_, d1, t, k, hfd, h1, h2, h3, h4, h5⟩

/-- An instruction response carrying the empty string in its `error`
field together with a valid payment instruction. -/
def envEmptyError : RelayEnv :=
  { sampleEnv with
    instructionResp :=
      { error? := some "", payment_instruction? := some sampleInstruction,
        signer_address? := some signerAddr } }

/-- Claim C5 is false on the code as stated: a response that contains an
`error` field holding the empty string (a falsy value) together with a
payment instruction is not rejected — the negotiation proceeds to a
settlement call. -/
theorem C5_counterexample :
    envEmptyError.instructionResp.error? = some "" ∧
    (handlePayment envEmptyError sampleReq).outcome = .ok (some "txok") ∧
    (handlePayment envEmptyError sampleReq).settleRequest?.isSome = true := by
  decide

/-- Claim C5 as amended: if the instruction response carries a non-empty
(truthy) `error` field, or carries no truthy error but omits the payment
instruction, `fulfill` fails with the relay-rejected error — carrying the
relay's message, or `No instruction returned` on omission — and neither a
final draft nor a settlement call is made. -/
theorem C5_relay_rejected (env : RelayEnv) (req : PaymentRequirements)
    (log : RunLog) (hrun : handlePayment env req = log)
    (hreach : log.instructionRequested = true) :
    (∀ m, jsTruthyStr env.instructionResp.error? = some m →
        log.outcome = .error (.relayRejected m) ∧ log.settleRequest? = none ∧
        log.finalDraft? = none) ∧
    (jsTruthyStr env.instructionResp.error? = none →
        env.instructionResp.payment_instruction? = none →
        log.outcome = .error (.relayRejected "No instruction returned") ∧
        log.settleRequest? = none ∧ log.finalDraft? = none) := by
  subst hrun
  revert hreach
  simp only [handlePayment]
  repeat' split
  all_goals intro hreach
  all_goals simp_all

/-- An instruction response reporting the spec scenario error. -/
def envNoFunds : RelayEnv :=
  { sampleEnv with instructionResp := { error? := some "no funds" } }

/-- Witness for C5 on the spec's scenario: the relay answers
`error: "no funds"` and `fulfill` fails with that message before any
settlement call. -/
theorem C5_relay_rejected_witness :
    (handlePayment envNoFunds sampleReq).instructionRequested = true ∧
    (handlePayment envNoFunds sampleReq).outcome =
      .error (.relayRejected "no funds") ∧
    (handlePayment envNoFunds sampleReq).settleRequest? = none :=
  ⟨by decide,
   ((C5_relay_rejected envNoFunds sampleReq _ rfl (by decide)).1 "no funds" (by decide)).1,
   ((C5_relay_rejected envNoFunds sampleReq _ rfl (by decide)).1 "no funds" (by decide)).2.1⟩

/-- A settlement response with `success: false` and no reason fields. -/
def envSettleNoReason : RelayEnv :=
  { sampleEnv with settleResp := { success? := some false } }

/-- Claim C6 is false on the code in one detail: when the failed
settlement response carries no reason, the raised error carries the
literal `Unknown error`, not `unknown`. -/
theorem C6_counterexample :
    envSettleNoReason.settleResp.errorReason? = none ∧
    envSettleNoReason.settleResp.error? = none ∧
    (handlePayment envSettleNoReason sampleReq).outcome =
      .error (.settlementFailed "Unknown error") ∧
    "Unknown error" ≠ "unknown" := by
  decide

/-- Claim C6 as amended: whenever a settlement call is made, any response
whose `success` flag is absent or not `true` fails the negotiation with
the settlement-failed error carrying `errorReason || error ||
"Unknown error"`; and on every path the negotiation only reports success
when the settlement response's `success` flag is `true`. -/
theorem C6_settlement_failure (env : RelayEnv) (req : PaymentRequirements)
    (log : RunLog) (hrun : handlePayment env req = log) :
    (log.settleRequest?.isSome = true → env.settleResp.success? ≠ some true →
        log.outcome = .error (.settlementFailed (settleFailMsg env.settleResp))) ∧
    (∀ tx?, log.outcome = .ok tx? →
        env.settleResp.success? = some true ∧ tx? = env.settleResp.transaction?) := by
  subst hrun
  simp only [handlePayment]
  repeat' split
  all_goals simp_all

/-- A settlement response lacking the `success` flag entirely, with a
relay-supplied reason. -/
def envSettleMissingFlag : RelayEnv :=
  { sampleEnv with settleResp := { errorReason? := some "boom" } }

/-- Witness for C6: a settlement response with no `success` flag is
treated as failure, carrying the relay-supplied reason. -/
theorem C6_settlement_failure_witness :
    (handlePayment envSettleMissingFlag sampleReq).settleRequest?.isSome = true ∧
    (handlePayment envSettleMissingFlag sampleReq).outcome =
      .error (.settlementFailed "boom") :=
  ⟨by decide,
   (C6_settlement_failure envSettleMissingFlag sampleReq _ rfl).1 (by decide) (by decide)⟩

/-- A challenge whose network is not the hardcoded mainnet identifier. -/
def reqDevnet : PaymentRequirements :=
  { sampleReq with network := "solana:devnet" }

/-- Claim C7 is false on the code in one detail: the settlement envelope's
network is the hardcoded mainnet identifier, so it does not match the
challenge's network when the challenge names any other network. -/
theorem C7_counterexample :
    reqDevnet.network = "solana:devnet" ∧
    (handlePayment sampleEnv reqDevnet).settleRequest?.map SettleRequest.network =
      some "solana:5eykt4UsFv8P8NJdTREpY1vzqKqZKvdp" ∧
    (handlePayment sampleEnv reqDevnet).settleRequest?.map SettleRequest.network ≠
      some reqDevnet.network := by
  decide

/-- Claim C7 as amended: every settlement request wraps the signed proof
in an envelope whose scheme is `exact` and whose network is the fixed
mainnet identifier (matching the challenge's network only when the
challenge is on that network), whose amount, recipient and asset are
copied from the challenge, and which records the relay-resolved signer as
the fee payer — both in the envelope's `extra.feePayer` field and as the
submitted draft's fee payer. -/
theorem C7_settle_envelope (env : RelayEnv) (req : PaymentRequirements)
    (log : RunLog) (hrun : handlePayment env req = log) (sr : SettleRequest)
    (hsr : log.settleRequest? = some sr) :
    sr.scheme = "exact" ∧
    sr.network = "solana:5eykt4UsFv8P8NJdTREpY1vzqKqZKvdp" ∧
    sr.maxAmountRequired = req.maxAmountRequired ∧
    sr.payTo = req.payTo ∧ sr.asset = req.asset ∧
    log.signerAddress? = some sr.extraFeePayer ∧
    log.finalDraft? = some sr.transactionDraft ∧
    parsePublicKey sr.extraFeePayer = some sr.transactionDraft.feePayer := by
  subst hrun
  revert hsr
  simp only [handlePayment]
  repeat' split
  all_goals intro hsr
  all_goals simp_all
  all_goals subst hsr
  all_goals exact ⟨rfl, rfl, rfl, rfl, rfl, rfl, rfl, by assumption⟩

/-- Witness for C7 on the concrete successful run. -/
theorem C7_settle_envelope_witness :
    ∃ sr, (handlePayment sampleEnv sampleReq).settleRequest? = some sr ∧
      sr.network = "solana:5eykt4UsFv8P8NJdTREpY1vzqKqZKvdp" ∧
      sr.maxAmountRequired = sampleReq.maxAmountRequired ∧
      sr.payTo = sampleReq.payTo := by
  have hs : (handlePayment sampleEnv sampleReq).settleRequest?.isSome = true := by decide
  have hsr : (handlePayment sampleEnv sampleReq).settleRequest? =
      some ((handlePayment sampleEnv sampleReq).settleRequest?.get hs) :=
    (Option.some_get hs).symm
  have h := C7_settle_envelope sampleEnv sampleReq _ rfl _ hsr
  exact ⟨_, hsr, h.2.1, h.2.2.1, h.2.2.2.1⟩

/-- A response body observed as still pending. -/
def isPendingB : JobFetchResult → Bool
  | .data d => d.status? == some "pending"
  | .httpErr _ => false

theorem pollFrom_pending_step (resp : Nat → JobFetchResult) (jobId : String)
    (maxAttempts attempt fuel : Nat) (h : isPendingB (resp attempt) = true) :
    pollJobStatusFrom resp jobId maxAttempts attempt (fuel + 1) =
      pollJobStatusFrom resp jobId maxAttempts (attempt + 1) fuel := by
  cases hr : resp attempt with
  | httpErr c => simp [isPendingB, hr] at h
  | data d =>
      have hs : d.status? = some "pending" := by simpa [isPendingB, hr] using h
      simp [pollJobStatusFrom, hr, hs]

theorem pollFrom_all_pending (resp : Nat → JobFetchResult) (jobId : String)
    (maxAttempts : Nat) :
    ∀ fuel attempt, (∀ j, j < fuel → isPendingB (resp (attempt + j)) = true) →
      pollJobStatusFrom resp jobId maxAttempts attempt fuel =
        .timeout ("Job timed out after " ++ toString maxAttempts ++ " attempts") := by
  intro fuel
  induction fuel with
  | zero => intro attempt _; rfl
  | succ f ih =>
      intro attempt hp
      rw [pollFrom_pending_step resp jobId maxAttempts attempt f
          (by simpa using hp 0 (Nat.zero_lt_succ f))]
      refine ih (attempt + 1) (fun j hj => ?_)
      have h2 := hp (j + 1) (by omega)
      have h3 : attempt + (j + 1) = attempt + 1 + j := by omega
      rw [h3] at h2
      exact h2

theorem pollFrom_reach (resp : Nat → JobFetchResult) (jobId : String)
    (maxAttempts : Nat) :
    ∀ i attempt fuel, (∀ j, j < i → isPendingB (resp (attempt + j)) = true) →
      pollJobStatusFrom resp jobId maxAttempts attempt (fuel + i) =
        pollJobStatusFrom resp jobId maxAttempts (attempt + i) fuel := by
  intro i
  induction i with
  | zero => intro attempt fuel _; rfl
  | succ n ih =>
      intro attempt fuel hp
      have h0 : isPendingB (resp attempt) = true := by simpa using hp 0 (by omega)
      have hstep : fuel + (n + 1) = (fuel + n) + 1 := by omega
      rw [hstep, pollFrom_pending_step resp jobId maxAttempts attempt (fuel + n) h0]
      have hrec := ih (attempt + 1) fuel (fun j hj => by
        have h2 := hp (j + 1) (by omega)
        have h3 : attempt + (j + 1) = attempt + 1 + j := by omega
        rw [h3] at h2
        exact h2)
      rw [hrec]
      congr 1
      omega

/-- A 404-style error body as the fetch-based poller would parse it. -/
def missingJobBody : JobData := { error? := some "Job not found" }

/-- Claim C9 is false on the fetch-based `pollJobStatus` of
`src/index.ts`: that loop has no catch block and never inspects the HTTP
status, so a missing-job response — whose JSON body carries no
completed/failed status — is treated as still pending and the poll times
out instead of failing with a job-not-found error. -/
theorem C9_counterexample :
    missingJobBody.status? = none ∧
    pollJobStatusFetch (fun _ => missingJobBody) 3 =
      .timeout "Job timed out after 3 attempts" := by
  decide

/-- Claim C9 as amended: for the axios-based `pollJobStatus` (second
source file) the claim holds in full — after any pending prefix it
returns the body on `completed`, fails with the job-failed error carrying
the remote error text on `failed`, fails with the job-not-found error on
a thrown 404, and times out after `maxAttempts` pending observations; the
fetch-based `pollJobStatus` of `src/index.ts` behaves the same except
that a missing-job response is not detected: any body that is neither
`completed` nor `failed` only ever leads to the timeout failure. -/
theorem C9_poll_outcomes (resp : Nat → JobFetchResult) (jobId : String)
    (maxAttempts : Nat) :
    (∀ i, i < maxAttempts → (∀ j, j < i → isPendingB (resp j) = true) →
        (∀ d, resp i = .data d →
            (d.status? = some "completed" →
                pollJobStatus resp jobId maxAttempts = .completed d) ∧
            (d.status? = some "failed" →
                pollJobStatus resp jobId maxAttempts =
                  .jobFailed ("Job failed: " ++ ((jsTruthyStr d.error?).getD "Unknown error")))) ∧
        (resp i = .httpErr (some 404) →
            pollJobStatus resp jobId maxAttempts =
              .jobNotFound ("Job not found: " ++ jobId))) ∧
    ((∀ j, j < maxAttempts → isPendingB (resp j) = true) →
        pollJobStatus resp jobId maxAttempts =
          .timeout ("Job timed out after " ++ toString maxAttempts ++ " attempts")) ∧
    (∀ (body : JobData) (n : Nat), body.status? ≠ some "completed" →
        body.status? ≠ some "failed" →
        pollJobStatusFetch (fun _ => body) n =
          .timeout ("Job timed out after " ++ toString n ++ " attempts")) := by
  refine ⟨?_, ?_, ?_⟩
  · intro i hi hp
    have hkey := pollFrom_reach resp jobId maxAttempts i 0 (maxAttempts - i)
        (fun j hj => by simpa using hp j hj)
    have hfix : maxAttempts - i + i = maxAttempts := by omega
    rw [hfix] at hkey
    obtain ⟨m, hm⟩ : ∃ m, maxAttempts - i = m + 1 := ⟨maxAttempts - i - 1, by omega⟩
    rw [hm] at hkey
    constructor
    · intro d hd
      constructor
      · intro hc
        unfold pollJobStatus
        rw [hkey]
        simp [pollJobStatusFrom, hd, hc]
      · intro hf
        unfold pollJobStatus
        rw [hkey]
        simp [pollJobStatusFrom, hd, hf]
    · intro hh
      unfold pollJobStatus
      rw [hkey]
      simp [pollJobStatusFrom, hh]
  · intro hp
    exact pollFrom_all_pending resp jobId maxAttempts maxAttempts 0
      (fun j hj => by simpa using hp j hj)
  · intro body n h1 h2
    suffices h : ∀ fuel attempt,
        pollJobStatusFetchFrom (fun _ => body) n attempt fuel =
          .timeout ("Job timed out after " ++ toString n ++ " attempts") from h n 0
    intro fuel
    induction fuel with
    | zero => intro attempt; rfl
    | succ f ih =>
        intro attempt
        simp [pollJobStatusFetchFrom, h1, h2, ih]

/-- A pending job body. -/
def pendingBody : JobData := { status? := some "pending" }

/-- A completed job body. -/
def completedBody : JobData :=
  { status? := some "completed", video_url? := some "https://example.com/v.mp4" }

/-- The spec's scenario sequence: pending, pending, completed. -/
def sampleJobResp : Nat → JobFetchResult :=
  fun n => if n < 2 then .data pendingBody else .data completedBody

/-- Witness for C9 on the scenario pending, pending, completed: the poll
returns the completed body after two retries. -/
theorem C9_poll_outcomes_witness :
    pollJobStatus sampleJobResp "job-1" 60 = .completed completedBody :=
  (((C9_poll_outcomes sampleJobResp "job-1" 60).1 2 (by decide)
      (by decide)).1 completedBody (by decide)).1 (by decide)

end X402
